import Mathlib

/-
Verification of the remote-command execution subsystem of
`combined_project01` (file `combined1.py`).

The development shallowly embeds, from the Python source:
  * `shlex.split` in POSIX mode with `whitespace_split` (used by
    `autocorrect_cmd`, lines 152-155), as `shlexSplit`.  A `ValueError`
    ("No closing quotation" / "No escaped character") is modelled as `none`.
  * `difflib.SequenceMatcher(None, a, b).ratio()` (lines 164 and 176) via
    `matchTotalF` below: with no junk and short strings (autojunk needs
    `len(b) >= 200`), `find_longest_match` returns the longest common
    contiguous block, preferring the smallest start index in `a` and then
    in `b`, and `ratio() = 2*M/(len a + len b)` where `M` is the total size
    of the recursively found matching blocks.  Float comparisons with the
    literal `0.6` are modelled as exact rational comparisons
    (`ratio > 0.6  <=>  10*M > 3*(len a + len b)`): every ratio arising here
    is a rational with denominator < 200, so its distance from 3/5 (and the
    distance between two distinct candidate ratios) far exceeds the rounding
    error of double precision, and `3/5` itself rounds to the same double as
    the literal `0.6`.
  * `difflib.get_close_matches(sub, SUBCOMMANDS, n=1)` (line 175): keeps the
    candidates whose ratio (quick ratios are upper bounds of `ratio()`) is
    `>= 0.6` and returns the largest by the pair (ratio, string);
    `heapq.nlargest(1, ...)` is `max` over tuples `(score, x)`, and two
    distinct strings never produce equal tuples, so the result is
    independent of the Python set iteration order.
  * the correction passes of `autocorrect_cmd` (lines 150-180) as
    `fixHead` (lines 162-169), `fixSub` (lines 171-178) and
    `autocorrect_cmd` (tokenize, fix, rejoin with single spaces, strip the
    note); `str.strip()` is `pyStrip` (only ASCII blanks occur at the ends
    of the notes built here).
  * the Docker command catalog `COMMANDS` (lines 61-136) and the template
    resolution `tmpl.format(arg=arg) if arg else ""` (lines 536-541) as
    `resolveTemplate`; `str.format` on the catalog's templates (whose only
    replacement fields are literal `\x7barg\x7d`) is `pyFormatArg`.
  * the two sidebar SSH connect/disconnect handlers (lines 398-419 for the
    Linux slot and 499-520 for the Docker slot, which are identical up to
    the session key) as `connectClick` / `disconnectClick` over an abstract
    network outcome `NetOutcome` standing for the `paramiko` call; the model
    tracks on which clients `.close()` was called.
-/

set_option maxRecDepth 200000

/-! ## shlex.split (POSIX mode, whitespace_split) -/

/-- `shlex.whitespace = " \t\r\n"`. -/
def isShWs (c : Char) : Bool :=
  c == ' ' || c == '\t' || c == '\r' || c == '\n'

/-- States of the `shlex` scanner: outside a token, inside a word, inside a
single-quoted or double-quoted section, or after an escape character seen in
word context (`escapedstate = 'a'`) or inside double quotes
(`escapedstate = '"'`, the only member of `escapedquotes`). -/
inductive ShState
  | space | word | squote | dquote | escA | escQ
  deriving DecidableEq

/-- One pass of `shlex.split` in POSIX mode: `cs` is the remaining input,
`tok` the current token accumulated in reverse, `quoted` whether the current
token saw a quote (an empty unquoted token at end of input is dropped, an
empty quoted one is kept), `acc` the emitted tokens in reverse.  `none`
models the `ValueError` raised on an unterminated quote or escape. -/
def shlexRun : List Char → ShState → List Char → Bool → List String → Option (List String)
  | [], .space, tok, quoted, acc =>
      if tok ≠ [] || quoted then some (((String.mk tok.reverse) :: acc).reverse)
      else some acc.reverse
  | [], .word, tok, quoted, acc =>
      if tok ≠ [] || quoted then some (((String.mk tok.reverse) :: acc).reverse)
      else some acc.reverse
  | [], .squote, _, _, _ => none
  | [], .dquote, _, _, _ => none
  | [], .escA, _, _, _ => none
  | [], .escQ, _, _, _ => none
  | c :: cs, .space, tok, quoted, acc =>
      if isShWs c then shlexRun cs .space tok quoted acc
      else if c = '\'' then shlexRun cs .squote tok true acc
      else if c = '"' then shlexRun cs .dquote tok true acc
      else if c = '\\' then shlexRun cs .escA tok quoted acc
      else shlexRun cs .word (c :: tok) quoted acc
  | c :: cs, .word, tok, quoted, acc =>
      if isShWs c then
        if tok ≠ [] || quoted then
          shlexRun cs .space [] false ((String.mk tok.reverse) :: acc)
        else shlexRun cs .space [] false acc
      else if c = '\'' then shlexRun cs .squote tok true acc
      else if c = '"' then shlexRun cs .dquote tok true acc
      else if c = '\\' then shlexRun cs .escA tok quoted acc
      else shlexRun cs .word (c :: tok) quoted acc
  | c :: cs, .squote, tok, quoted, acc =>
      if c = '\'' then shlexRun cs .word tok quoted acc
      else shlexRun cs .squote (c :: tok) quoted acc
  | c :: cs, .dquote, tok, quoted, acc =>
      if c = '"' then shlexRun cs .word tok quoted acc
      else if c = '\\' then shlexRun cs .escQ tok quoted acc
      else shlexRun cs .dquote (c :: tok) quoted acc
  | c :: cs, .escA, tok, quoted, acc =>
      shlexRun cs .word (c :: tok) quoted acc
  | c :: cs, .escQ, tok, quoted, acc =>
      if c ≠ '\\' ∧ c ≠ '"' then shlexRun cs .dquote (c :: '\\' :: tok) quoted acc
      else shlexRun cs .dquote (c :: tok) quoted acc

/-- `shlex.split(cmd)` (line 153). -/
def shlexSplit (s : String) : Option (List String) :=
  shlexRun s.data .space [] false []

/-! ## difflib.SequenceMatcher -/

/-- Length of the common prefix of two character lists. -/
def commonLen : List Char → List Char → Nat
  | a :: as, b :: bs => if a = b then commonLen as bs + 1 else 0
  | _, _ => 0

/-- `find_longest_match` over the whole of `a` and `b` (no junk): the
longest common contiguous block `(i, j, k)`, preferring the smallest `i`,
then the smallest `j`.  Scanned in lexicographic `(i, j)` order with strict
improvement, exactly the preference order of difflib's implementation. -/
def bestBlock (a b : List Char) : Nat × Nat × Nat :=
  (List.range a.length).foldl (fun best i =>
    (List.range b.length).foldl (fun best j =>
      let k := commonLen (a.drop i) (b.drop j)
      if best.2.2 < k then (i, j, k) else best) best) (0, 0, 0)

/-- Total size `M` of the matching blocks of `get_matching_blocks`: take the
longest match, recurse on the parts to its left and to its right.  `fuel`
only drives termination: every recursive call strictly decreases
`a.length + b.length`, so the initial fuel `a.length + b.length` used by
`smM` below never runs out and the function agrees with difflib's
unrestricted recursion. -/
def matchTotalF : Nat → List Char → List Char → Nat
  | 0, _, _ => 0
  | fuel + 1, a, b =>
      let t := bestBlock a b
      if t.2.2 = 0 then 0
      else
        matchTotalF fuel (a.take t.1) (b.take t.2.1) + t.2.2 +
          matchTotalF fuel (a.drop (t.1 + t.2.2)) (b.drop (t.2.1 + t.2.2))

/-- `M` for `SequenceMatcher(None, a, b)`; `ratio() = 2*M/(|a|+|b|)`. -/
def smM (a b : String) : Nat :=
  matchTotalF (a.length + b.length) a.data b.data

/-- `SequenceMatcher(None, a, b).ratio() > 0.6`, i.e. `10*M > 3*(|a|+|b|)`. -/
def ratioGT (a b : String) : Bool :=
  3 * (a.length + b.length) < 10 * smM a b

/-- `SequenceMatcher(None, a, b).ratio() >= 0.6` (the `get_close_matches`
cutoff), i.e. `10*M >= 3*(|a|+|b|)`. -/
def ratioGE (a b : String) : Bool :=
  3 * (a.length + b.length) ≤ 10 * smM a b

/-! ## Vocabulary store and auto-correction -/

/-- The `SUBCOMMANDS` set (lines 138-145), in source order. -/
def SUBCOMMANDS : List String :=
  ["attach", "build", "builder", "checkpoint", "commit", "compose", "config",
   "container", "context", "cp", "create", "diff", "events", "exec", "export",
   "history", "image", "images", "import", "info", "inspect", "kill", "load",
   "login", "logout", "logs", "network", "pause", "port", "ps", "pull", "push",
   "rename", "restart", "rm", "rmi", "run", "save", "scan", "search", "secret",
   "service", "stack", "start", "stats", "stop", "swarm", "system", "tag",
   "top", "trust", "unpause", "update", "version", "volume", "wait"]

/-- `difflib.get_close_matches(w, SUBCOMMANDS, n=1)` (line 175): among the
candidates `x` with `ratio(x, w) >= 0.6`, the maximum by the Python tuple
`(ratio, x)`; ratios are compared as exact fractions `2*M/(|x|+|w|)` by
cross-multiplication.  Distinct candidates never tie on the full tuple, so
the fold over the source-order list returns the same element as Python's
`max` over the set in any iteration order. -/
def getCloseMatches1 (w : String) : Option String :=
  SUBCOMMANDS.foldl (fun best x =>
    if ratioGE x w then
      match best with
      | none => some x
      | some y =>
          if 2 * smM y w * (x.length + w.length) < 2 * smM x w * (y.length + w.length)
             ∨ (2 * smM x w * (y.length + w.length) = 2 * smM y w * (x.length + w.length)
                ∧ y < x)
          then some x else some y
    else best) none

/-- Characters removed by `str.strip()` at the ends of the fix notes (only
ASCII blanks ever occur there). -/
def isPyWs (c : Char) : Bool :=
  c == ' ' || c == '\t' || c == '\n' || c == '\r' || c == '\x0b' || c == '\x0c'

/-- `str.strip()` on the character list. -/
def pyStripL (l : List Char) : List Char :=
  ((l.dropWhile isPyWs).reverse.dropWhile isPyWs).reverse

/-- `str.strip()`. -/
def pyStrip (s : String) : String :=
  String.mk (pyStripL s.data)

/-- Lines 162-169 of `autocorrect_cmd`: fix a typo in, or insert, the
leading `docker`. -/
def fixHead : List String → List String × String
  | [] => ([], "")
  | t0 :: rest =>
      if t0 = "docker" then (t0 :: rest, "")
      else if ratioGT t0 "docker" then
        ("docker" :: rest, "Auto-corrected '" ++ t0 ++ "' → 'docker'.  ")
      else if SUBCOMMANDS.contains t0 then
        ("docker" :: t0 :: rest, "Inserted missing 'docker' prefix.  ")
      else (t0 :: rest, "")

/-- Lines 171-178 of `autocorrect_cmd`: fix a typo in the sub-command. -/
def fixSub : List String → List String × String
  | t0 :: t1 :: rest =>
      if t0 = "docker" then
        if SUBCOMMANDS.contains t1 then (t0 :: t1 :: rest, "")
        else
          match getCloseMatches1 t1 with
          | some c =>
              if ratioGT t1 c then
                (t0 :: c :: rest,
                 "Auto-corrected sub-command '" ++ t1 ++ "' → '" ++ c ++ "'.  ")
              else (t0 :: t1 :: rest, "")
          | none => (t0 :: t1 :: rest, "")
      else (t0 :: t1 :: rest, "")
  | ts => (ts, "")

/-- `autocorrect_cmd` (lines 150-180). -/
def autocorrect_cmd (cmd : String) : String × String :=
  match shlexSplit cmd with
  | none => (cmd, "Could not parse command; running verbatim.")
  | some [] => (cmd, "Empty command; nothing to run.")
  | some (t :: ts) =>
      (String.intercalate " " (fixSub (fixHead (t :: ts)).1).1,
       pyStrip ((fixHead (t :: ts)).2 ++ (fixSub (fixHead (t :: ts)).1).2))

/-! ## Command catalog and template substitution -/

/-- The `COMMANDS` catalog (lines 61-136): label, shell template, needs_arg. -/
def COMMANDS : List (String × String × Bool) :=
  [("Docker Version", "docker --version", false),
   ("Docker Info", "docker info", false),
   ("List Images", "docker images", false),
   ("List Containers (all)", "docker ps -a", false),
   ("Run hello-world", "docker run --rm hello-world", false),
   ("Pull Image (name)", "docker pull {arg}", true),
   ("Remove Image (name/id)", "docker rmi {arg}", true),
   ("Create Container (name) from alpine", "docker create --name {arg} alpine", true),
   ("Start Container", "docker start {arg}", true),
   ("Stop Container", "docker stop {arg}", true),
   ("Remove Container", "docker rm {arg}", true),
   ("Container Logs", "docker logs {arg}", true),
   ("Exec Shell (/bin/sh)", "docker exec -it {arg} /bin/sh", true),
   ("Live Stats", "docker stats --no-stream", false),
   ("System Prune (all)", "docker system prune -f", false),
   ("Prune Dangling Images", "docker image prune -f", false),
   ("Prune Volumes", "docker volume prune -f", false),
   ("List Networks", "docker network ls", false),
   ("Create Network", "docker network create {arg}", true),
   ("Remove Network", "docker network rm {arg}", true),
   ("List Volumes", "docker volume ls", false),
   ("Create Volume", "docker volume create {arg}", true),
   ("Remove Volume", "docker volume rm {arg}", true),
   ("Tag Image", "docker tag {arg}", true),
   ("Push Image", "docker push {arg}", true),
   ("Inspect Container", "docker inspect {arg}", true),
   ("Inspect Image", "docker inspect {arg}", true),
   ("Copy out (ctr:path dest)", "docker cp {arg}", true),
   ("Disk Usage", "docker system df", false),
   ("Image History", "docker history {arg}", true),
   ("Login to Registry", "docker login", false),
   ("Logout from Registry", "docker logout", false),
   ("List Contexts", "docker context ls", false),
   ("Switch Context", "docker context use {arg}", true),
   ("Compose Version", "docker compose version", false),
   ("Compose Up (detached)", "docker compose up -d", false),
   ("Compose Down", "docker compose down", false),
   ("Compose Logs", "docker compose logs --tail 50", false),
   ("List Builder Cache", "docker builder ls", false),
   ("Prune Builder Cache", "docker builder prune -f", false),
   ("Builder Build (Dockerfile)", "docker build -t {arg}", true),
   ("Save Image → tar", "docker save {arg}", true),
   ("Load Image from tar", "docker load -i {arg}", true),
   ("Top (processes in ctr)", "docker top {arg}", true),
   ("Checkpoint create", "docker checkpoint create {arg}", true),
   ("Checkpoint list", "docker checkpoint ls {arg}", true),
   ("Checkpoint rm", "docker checkpoint rm {arg}", true),
   ("Image Digests", "docker image ls --digests", false),
   ("Events (10s)", "timeout 10 docker events", false),
   ("Rename Container", "docker rename {arg}", true),
   ("Commit Container → Image", "docker commit {arg}", true),
   ("Update Container Resources", "docker update {arg}", true),
   ("Exit", "exit", false)]

/-- `tmpl.format(arg=arg)` for templates whose only replacement fields are
literal `\x7barg\x7d` occurrences (true of every template in `COMMANDS`):
each occurrence is replaced by the argument, all other characters are
copied verbatim. -/
def formatArgAux (arg : List Char) : List Char → List Char
  | '{' :: 'a' :: 'r' :: 'g' :: '}' :: rest => arg ++ formatArgAux arg rest
  | c :: rest => c :: formatArgAux arg rest
  | [] => []

/-- `tmpl.format(arg=arg)` (line 539). -/
def pyFormatArg (tmpl arg : String) : String :=
  String.mk (formatArgAux arg.data tmpl.data)

/-- `cmd_to_run = tmpl.format(arg=arg) if arg else ""` (line 539): the
empty argument (Python falsy) resolves to the empty command. -/
def resolveTemplate (tmpl arg : String) : String :=
  if arg = "" then "" else pyFormatArg tmpl arg

/-- The template's text before its `\x7barg\x7d` placeholder. -/
def tmplPre (tmpl : String) : List Char :=
  tmpl.data.takeWhile (fun c => c != '{')

/-- The template's text after its `\x7barg\x7d` placeholder. -/
def tmplSuf (tmpl : String) : List Char :=
  tmpl.data.drop ((tmpl.data.takeWhile (fun c => c != '{')).length + 5)

/-- A template is well-formed for `pyFormatArg` when it is exactly
`tmplPre ++ "\x7barg\x7d" ++ tmplSuf` with no further `{` anywhere. -/
def goodTmpl (tmpl : String) : Bool :=
  (decide (tmpl.data = tmplPre tmpl ++ ('{' :: 'a' :: 'r' :: 'g' :: '}' :: tmplSuf tmpl)))
  && (tmplSuf tmpl).all (fun c => c != '{')

/-! ## Remote session slots (connect / disconnect handlers) -/

/-- Outcome of the abstract network call
`paramiko.SSHClient().connect(host, 22, user, password, ...)`: success
(yielding a fresh client) or any raised exception (network failure, auth
failure, timeout) with its message. -/
inductive NetOutcome
  | ok
  | err (msg : String)
  deriving DecidableEq

/-- One session slot (`st.session_state.linux_client` or
`st.session_state.docker_client`): the client currently held, if any, plus
the audit list of client ids on which `.close()` has been called. -/
structure SessSlot where
  client : Option Nat
  closed : List Nat
  deriving DecidableEq

/-- The "Connect / Reconnect" button handler (lines 398-410 for the Linux
slot, 499-511 for the Docker slot; both are identical up to the session
key).  Returns the new slot state, whether network I/O was attempted, and
the sidebar message.  `newId` is the identity of the freshly constructed
`paramiko.SSHClient`.  Note the handler never calls `.close()` on a
previously held client. -/
def connectClick (host user pass : String) (newId : Nat) (net : NetOutcome)
    (st : SessSlot) : SessSlot × Bool × String :=
  if host = "" ∨ user = "" ∨ pass = "" then
    (st, false, "Host / user / password required")
  else
    match net with
    | .ok => ({ client := some newId, closed := st.closed }, true, "Connected ✔")
    | .err e => ({ client := none, closed := st.closed }, true, "Connect failed: " ++ e)

/-- The "Disconnect" button handler (lines 412-419 / 513-520): closes the
held client, if any, and empties the slot. -/
def disconnectClick (st : SessSlot) : SessSlot × String :=
  match st.client with
  | some c => ({ client := none, closed := st.closed ++ [c] }, "Disconnected")
  | none => ({ client := none, closed := st.closed }, "Disconnected")

/-! ## Helper lemmas -/

theorem dropWhile_app_of_nil {p : Char → Bool} {l1 : List Char} (l2 : List Char)
    (h : l1.dropWhile p = []) : (l1 ++ l2).dropWhile p = l2.dropWhile p := by
  induction l1 with
  | nil => rfl
  | cons c cs ih =>
      by_cases hp : p c = true
      · rw [List.dropWhile_cons, if_pos hp] at h
        rw [List.cons_append, List.dropWhile_cons, if_pos hp]
        exact ih h
      · rw [List.dropWhile_cons, if_neg hp] at h
        exact absurd h (by simp)

theorem dropWhile_app_of_ne {p : Char → Bool} {l1 : List Char} (l2 : List Char)
    (h : l1.dropWhile p ≠ []) : (l1 ++ l2).dropWhile p = l1.dropWhile p ++ l2 := by
  induction l1 with
  | nil => exact absurd rfl h
  | cons c cs ih =>
      by_cases hp : p c = true
      · rw [List.dropWhile_cons, if_pos hp] at h
        rw [List.cons_append, List.dropWhile_cons, if_pos hp,
          List.dropWhile_cons, if_pos hp]
        exact ih h
      · rw [List.cons_append, List.dropWhile_cons, if_neg hp,
          List.dropWhile_cons, if_neg hp, List.cons_append]

/-- Leading strip does nothing and the head survives when the first
character is not whitespace; the trailing strip can only eat into the far
end, so the front block survives `pyStripL` whole. -/
theorem pyStripL_front (a b : List Char) (c : Char) (cs : List Char)
    (hc : a = c :: cs) (hcw : isPyWs c = false)
    (d : Char) (ds : List Char) (hd : a.reverse = d :: ds) (hdw : isPyWs d = false) :
    ∃ q, pyStripL (a ++ b) = a ++ q := by
  unfold pyStripL
  have h1 : (a ++ b).dropWhile isPyWs = a ++ b := by
    rw [hc, List.cons_append, List.dropWhile_cons, if_neg (by simp [hcw])]
  rw [h1, List.reverse_append]
  by_cases h2 : b.reverse.dropWhile isPyWs = []
  · refine ⟨[], ?_⟩
    rw [dropWhile_app_of_nil a.reverse h2, hd, List.dropWhile_cons,
      if_neg (by simp [hdw]), ← hd, List.reverse_reverse, List.append_nil]
  · refine ⟨(b.reverse.dropWhile isPyWs).reverse, ?_⟩
    rw [dropWhile_app_of_ne a.reverse h2, List.reverse_append, List.reverse_reverse]

/-- Stripping a whitespace-only suffix recovers exactly the front block. -/
theorem pyStripL_exact (a sp : List Char) (c : Char) (cs : List Char)
    (hc : a = c :: cs) (hcw : isPyWs c = false)
    (d : Char) (ds : List Char) (hd : a.reverse = d :: ds) (hdw : isPyWs d = false)
    (hsp : sp.reverse.dropWhile isPyWs = []) :
    pyStripL (a ++ sp) = a := by
  unfold pyStripL
  have h1 : (a ++ sp).dropWhile isPyWs = a ++ sp := by
    rw [hc, List.cons_append, List.dropWhile_cons, if_neg (by simp [hcw])]
  rw [h1, List.reverse_append, dropWhile_app_of_nil a.reverse hsp, hd,
    List.dropWhile_cons, if_neg (by simp [hdw]), ← hd, List.reverse_reverse]

theorem string_data_inj {a b : String} (h : a.data = b.data) : a = b :=
  congrArg String.mk h

theorem data_head (front : String) (c : Char) (cs : List Char)
    (h : front.data = c :: cs) (restS : String) :
    (front ++ restS).data = c :: (cs ++ restS.data) := by
  rw [String.data_append, h, List.cons_append]

theorem data_last (back : String) (d : Char) (ds : List Char)
    (h : back.data.reverse = d :: ds) (frontS : String) :
    (frontS ++ back).data.reverse = d :: (ds ++ frontS.data.reverse) := by
  rw [String.data_append, List.reverse_append, h, List.cons_append]

/-- String-level front-survival lemma for `pyStrip`. -/
theorem pyStrip_front (A B : String) (c : Char) (cs : List Char)
    (hc : A.data = c :: cs) (hcw : isPyWs c = false)
    (d : Char) (ds : List Char) (hd : A.data.reverse = d :: ds) (hdw : isPyWs d = false) :
    ∃ q : String, pyStrip (A ++ B) = A ++ q := by
  obtain ⟨ql, hql⟩ := pyStripL_front A.data B.data c cs hc hcw d ds hd hdw
  refine ⟨String.mk ql, ?_⟩
  unfold pyStrip
  rw [String.data_append, hql]
  rfl

/-- The sub-command pass never changes the leading token. -/
theorem fixSub_keepHead (t0 : String) (rest : List String) :
    ∃ r2, (fixSub (t0 :: rest)).1 = t0 :: r2 := by
  cases rest with
  | nil => exact ⟨[], rfl⟩
  | cons t1 r =>
      simp only [fixSub]
      repeat' split
      all_goals exact ⟨_, rfl⟩

/-- The sub-command pass touches at most the first two tokens. -/
theorem fixSub_drop2 (l : List String) : (fixSub l).1.drop 2 = l.drop 2 := by
  match l with
  | [] => rfl
  | [t0] => rfl
  | t0 :: t1 :: r =>
      simp only [fixSub]
      repeat' split
      all_goals rfl

/-- The three possible outcomes of the leading-token pass. -/
theorem fixHead_cases (t : String) (ts : List String) :
    (fixHead (t :: ts)).1 = t :: ts ∨ (fixHead (t :: ts)).1 = "docker" :: ts ∨
    ((fixHead (t :: ts)).1 = "docker" :: t :: ts ∧ SUBCOMMANDS.contains t = true) := by
  simp only [fixHead]
  by_cases h0 : t = "docker"
  · rw [if_pos h0]; exact Or.inl rfl
  · rw [if_neg h0]
    by_cases hr : ratioGT t "docker" = true
    · rw [if_pos hr]; exact Or.inr (Or.inl rfl)
    · rw [if_neg hr]
      by_cases hm : SUBCOMMANDS.contains t = true
      · rw [if_pos hm]; exact Or.inr (Or.inr ⟨rfl, hm⟩)
      · rw [if_neg hm]; exact Or.inl rfl

/-! ## Claims about `autocorrect_cmd` -/

/-- Claim C5 (amended): when shell tokenization fails (unbalanced quote or
trailing escape), `autocorrect_cmd` returns the original string unmodified
with the note "Could not parse command; running verbatim." and never
raises; the parse failure is recovered locally. -/
theorem autocorrect_parse_failure (s : String) (h : shlexSplit s = none) :
    autocorrect_cmd s = (s, "Could not parse command; running verbatim.") := by
  unfold autocorrect_cmd
  rw [h]

/-- Witness for C5 at the spec's example input. -/
theorem autocorrect_parse_failure_app :
    autocorrect_cmd "docker run \"unclosed" =
      ("docker run \"unclosed", "Could not parse command; running verbatim.") :=
  autocorrect_parse_failure "docker run \"unclosed" (by decide)

/-- Counterexample for C5 as stated: the note emitted by the code is
"Could not parse command; running verbatim.", not the claimed
"could not parse; running verbatim.". -/
theorem autocorrect_parse_note_diff :
    autocorrect_cmd "docker run \"unclosed" =
      ("docker run \"unclosed", "Could not parse command; running verbatim.") ∧
    autocorrect_cmd "docker run \"unclosed" ≠
      ("docker run \"unclosed", "could not parse; running verbatim.") := by
  constructor <;> decide

/-- Claim C9: `autocorrect_cmd` is total (it is a plain Lean function on
all of `String`), the tokenizer's only failure (`shlex` `ValueError`,
modelled as `shlexSplit = none`) is caught and mapped to a note, and the
empty token list is handled explicitly. -/
theorem autocorrect_total_fallbacks (s : String) :
    (shlexSplit s = none →
       autocorrect_cmd s = (s, "Could not parse command; running verbatim.")) ∧
    (shlexSplit s = some [] →
       autocorrect_cmd s = (s, "Empty command; nothing to run.")) := by
  constructor
  · intro h; unfold autocorrect_cmd; rw [h]
  · intro h; unfold autocorrect_cmd; rw [h]

/-- Witness for C9: both fallback branches at concrete inputs. -/
theorem autocorrect_total_app :
    autocorrect_cmd "\"oops" = ("\"oops", "Could not parse command; running verbatim.") ∧
    autocorrect_cmd "" = ("", "Empty command; nothing to run.") :=
  ⟨(autocorrect_total_fallbacks "\"oops").1 (by decide),
   (autocorrect_total_fallbacks "").2 (by decide)⟩

/-- Claim C2 (amended): a command whose first token is `docker` and whose
second token (if any) is a known sub-command gets no correction: the note is
empty and the corrected command is the token list rejoined with single
spaces — which equals the input exactly when the input is already the
single-space join of its tokens. -/
theorem autocorrect_correct_cmd_unchanged (s : String) (rest : List String)
    (hs : shlexSplit s = some ("docker" :: rest))
    (hsub : ∀ u us, rest = u :: us → SUBCOMMANDS.contains u = true) :
    autocorrect_cmd s = (String.intercalate " " ("docker" :: rest), "") := by
  have hfh : fixHead ("docker" :: rest) = ("docker" :: rest, "") := by
    simp [fixHead]
  have hfs : fixSub ("docker" :: rest) = ("docker" :: rest, "") := by
    cases rest with
    | nil => rfl
    | cons u us =>
        have hm2 : u ∈ SUBCOMMANDS := by simpa using hsub u us rfl
        simp [fixSub, hm2]
  simp only [autocorrect_cmd, hs]
  rw [hfh, hfs]
  rfl

/-- Witness for C2 at the spec's example input. -/
theorem autocorrect_correct_cmd_app :
    autocorrect_cmd "docker ps -a" = ("docker ps -a", "") :=
  (autocorrect_correct_cmd_unchanged "docker ps -a" ["ps", "-a"] (by decide)
    (by intro u us h; injection h with h1 h2; subst h1; decide)).trans (by decide)

/-- Counterexample for C2 as stated: on `"docker  ps -a"` (double space) the
hypotheses of the claim hold, yet the function returns the rejoined
`"docker ps -a"`, not the input string itself. -/
theorem autocorrect_whitespace_not_identity :
    autocorrect_cmd "docker  ps -a" = ("docker ps -a", "") ∧
    (autocorrect_cmd "docker  ps -a").1 ≠ "docker  ps -a" := by
  constructor <;> decide

/-- Claim C3 (amended): a first token that is not `docker`, is not within
similarity 0.6 of it, but is itself a known sub-command, gets `docker`
inserted in front of it, with the note "Inserted missing 'docker' prefix."
(the claim's note text "inserted missing top-level command prefix." does not
match the code). -/
theorem autocorrect_insert_missing_head (s t : String) (rest : List String)
    (hs : shlexSplit s = some (t :: rest)) (ht : t ≠ "docker")
    (hr : ratioGT t "docker" = false) (hm : SUBCOMMANDS.contains t = true) :
    autocorrect_cmd s =
      (String.intercalate " " ("docker" :: t :: rest),
       "Inserted missing 'docker' prefix.") := by
  have hm2 : t ∈ SUBCOMMANDS := by simpa using hm
  have hfh : fixHead (t :: rest) =
      ("docker" :: t :: rest, "Inserted missing 'docker' prefix.  ") := by
    simp [fixHead, ht, hr, hm2]
  have hfs : fixSub ("docker" :: t :: rest) = ("docker" :: t :: rest, "") := by
    simp [fixSub, hm2]
  simp only [autocorrect_cmd, hs]
  rw [hfh, hfs]
  rfl

/-- Witness for C3 at the spec's example input. -/
theorem autocorrect_insert_missing_head_app :
    autocorrect_cmd "ps -a" = ("docker ps -a", "Inserted missing 'docker' prefix.") :=
  (autocorrect_insert_missing_head "ps -a" "ps" ["-a"]
    (by decide) (by decide) (by decide) (by decide)).trans (by decide)

/-- Counterexample for C3 as stated: the note emitted by the code is
"Inserted missing 'docker' prefix.", not the claimed
"inserted missing top-level command prefix.". -/
theorem autocorrect_insert_note_diff :
    autocorrect_cmd "ps -a" = ("docker ps -a", "Inserted missing 'docker' prefix.") ∧
    (autocorrect_cmd "ps -a").2 ≠ "inserted missing top-level command prefix." := by
  constructor <;> decide

/-- Claim C1 (amended): whenever the first token `t` is not `docker` but its
similarity ratio to `docker` exceeds 0.6, the first token is replaced by
`docker` and the note begins with "Auto-corrected '<old>' → 'docker'."
(the claim's note text "auto-corrected '<old>' -> '<new>'." does not match
the code's capitalisation and arrow). -/
theorem autocorrect_head_typo (s t : String) (rest : List String)
    (hs : shlexSplit s = some (t :: rest)) (ht : t ≠ "docker")
    (hr : ratioGT t "docker" = true) :
    (∃ rest2, (autocorrect_cmd s).1 = String.intercalate " " ("docker" :: rest2)) ∧
    (∃ q, (autocorrect_cmd s).2 = ("Auto-corrected '" ++ t ++ "' → 'docker'.") ++ q) := by
  have hfh : fixHead (t :: rest) =
      ("docker" :: rest, "Auto-corrected '" ++ t ++ "' → 'docker'.  ") := by
    simp [fixHead, ht, hr]
  have hfix : fixSub (fixHead (t :: rest)).1 = fixSub ("docker" :: rest) := by rw [hfh]
  have hfh2 : (fixHead (t :: rest)).2 = "Auto-corrected '" ++ t ++ "' → 'docker'.  " := by
    rw [hfh]
  simp only [autocorrect_cmd, hs]
  rw [hfix, hfh2]
  constructor
  · obtain ⟨r2, hr2⟩ := fixSub_keepHead "docker" rest
    exact ⟨r2, by rw [hr2]⟩
  · have hsplit : ("Auto-corrected '" ++ t ++ "' → 'docker'.  ")
        = ("Auto-corrected '" ++ t ++ "' → 'docker'.") ++ "  " := by
      rw [show ("' → 'docker'.  " : String) = "' → 'docker'." ++ "  " from by decide,
        ← String.append_assoc]
    rw [hsplit, String.append_assoc]
    have h1 : ("Auto-corrected '" ++ t).data = 'A' :: ("uto-corrected '".data ++ t.data) :=
      data_head "Auto-corrected '" 'A' "uto-corrected '".data (by decide) t
    have hc : ("Auto-corrected '" ++ t ++ "' → 'docker'.").data
        = 'A' :: (("uto-corrected '".data ++ t.data) ++ "' → 'docker'.".data) :=
      data_head ("Auto-corrected '" ++ t) 'A' _ h1 "' → 'docker'."
    have hd0 : "' → 'docker'.".data.reverse = '.' :: "' → 'docker'.".data.reverse.tail := by
      decide
    have hd : ("Auto-corrected '" ++ t ++ "' → 'docker'.").data.reverse
        = '.' :: ("' → 'docker'.".data.reverse.tail ++ ("Auto-corrected '" ++ t).data.reverse) :=
      data_last "' → 'docker'." '.' _ hd0 ("Auto-corrected '" ++ t)
    exact pyStrip_front _ _ 'A' _ hc (by decide) '.' _ hd (by decide)

/-- Witness for C1 at the spec's example input. -/
theorem autocorrect_head_typo_app :
    autocorrect_cmd "dcker ps -a" = ("docker ps -a", "Auto-corrected 'dcker' → 'docker'.") ∧
    ((∃ rest2, (autocorrect_cmd "dcker ps -a").1 = String.intercalate " " ("docker" :: rest2)) ∧
     (∃ q, (autocorrect_cmd "dcker ps -a").2 =
       ("Auto-corrected '" ++ "dcker" ++ "' → 'docker'.") ++ q)) :=
  ⟨by decide,
   autocorrect_head_typo "dcker ps -a" "dcker" ["ps", "-a"] (by decide) (by decide) (by decide)⟩

/-- Counterexample for C1 as stated: at the spec's own example the emitted
note is "Auto-corrected 'dcker' → 'docker'.", not the claimed
"auto-corrected 'dcker' -> 'docker'.". -/
theorem autocorrect_head_typo_note_diff :
    autocorrect_cmd "dcker ps -a" = ("docker ps -a", "Auto-corrected 'dcker' → 'docker'.") ∧
    (autocorrect_cmd "dcker ps -a").2 ≠ "auto-corrected 'dcker' -> 'docker'." := by
  constructor <;> decide

/-- Claim C4 (amended): with at least two tokens, first token `docker` after
the leading-token pass, and a second token outside the sub-command set, the
code replaces the second token by the single closest sub-command `c` when
`ratio > 0.6` and appends the note
"Auto-corrected sub-command '<old>' → '<new>'." (the claim's note text
"auto-corrected sub-command '<old>' -> '<new>'." does not match the code);
otherwise the second token is left unchanged. -/
theorem autocorrect_sub_typo (s t1 n1 : String) (tokens rest : List String)
    (hs : shlexSplit s = some tokens) (hne : tokens ≠ [])
    (hfix : fixHead tokens = ("docker" :: t1 :: rest, n1))
    (hmem : SUBCOMMANDS.contains t1 = false) :
    (∀ c, getCloseMatches1 t1 = some c → ratioGT t1 c = true →
       autocorrect_cmd s =
         (String.intercalate " " ("docker" :: c :: rest),
          pyStrip (n1 ++ ("Auto-corrected sub-command '" ++ t1 ++ "' → '" ++ c ++ "'.  ")))) ∧
    ((getCloseMatches1 t1 = none ∨
        ∃ c, getCloseMatches1 t1 = some c ∧ ratioGT t1 c = false) →
       autocorrect_cmd s =
         (String.intercalate " " ("docker" :: t1 :: rest), pyStrip (n1 ++ ""))) := by
  obtain ⟨t, ts, rfl⟩ := List.exists_cons_of_ne_nil hne
  have hmem2 : t1 ∉ SUBCOMMANDS := by simpa using hmem
  have hfix1 : (fixHead (t :: ts)).1 = "docker" :: t1 :: rest := by rw [hfix]
  have hfix2 : (fixHead (t :: ts)).2 = n1 := by rw [hfix]
  constructor
  · intro c hc hrt
    have hfs : fixSub ("docker" :: t1 :: rest) =
        ("docker" :: c :: rest,
         "Auto-corrected sub-command '" ++ t1 ++ "' → '" ++ c ++ "'.  ") := by
      simp [fixSub, hmem2, hc, hrt]
    simp only [autocorrect_cmd, hs]
    rw [hfix1, hfix2, hfs]
  · intro hdis
    have hfs : fixSub ("docker" :: t1 :: rest) = ("docker" :: t1 :: rest, "") := by
      rcases hdis with hnone | ⟨c, hc, hrt⟩
      · simp [fixSub, hmem2, hnone]
      · simp [fixSub, hmem2, hc, hrt]
    simp only [autocorrect_cmd, hs]
    rw [hfix1, hfix2, hfs]

/-- Witness for C4 at the spec's example input. -/
theorem autocorrect_sub_typo_app :
    autocorrect_cmd "docker pss -a" =
      ("docker ps -a", "Auto-corrected sub-command 'pss' → 'ps'.") :=
  ((autocorrect_sub_typo "docker pss -a" "pss" "" ["docker", "pss", "-a"] ["-a"]
      (by decide) (by decide) (by decide) (by decide)).1 "ps"
    (by decide) (by decide)).trans (by decide)

/-- Counterexample for C4 as stated: at the spec's own example the emitted
note is "Auto-corrected sub-command 'pss' → 'ps'.", not the claimed
"auto-corrected sub-command 'pss' -> 'ps'.". -/
theorem autocorrect_sub_note_diff :
    autocorrect_cmd "docker pss -a" =
      ("docker ps -a", "Auto-corrected sub-command 'pss' → 'ps'.") ∧
    (autocorrect_cmd "docker pss -a").2 ≠ "auto-corrected sub-command 'pss' -> 'ps'." := by
  constructor <;> decide

/-- Claim C10: on any successfully tokenized non-empty input, the corrected
command is exactly some token list rejoined with single spaces, where that
list agrees with the input tokens from index 2 on, except in the
prefix-insertion case where it is `docker` prepended to the whole input
token list; quoting and whitespace of the raw input never survive. -/
theorem autocorrect_rejoin_structure (s : String) (tokens : List String)
    (hs : shlexSplit s = some tokens) (hne : tokens ≠ []) :
    ∃ fixed, (autocorrect_cmd s).1 = String.intercalate " " fixed ∧
      (fixed.drop 2 = tokens.drop 2 ∨ fixed = "docker" :: tokens) := by
  obtain ⟨t, ts, rfl⟩ := List.exists_cons_of_ne_nil hne
  simp only [autocorrect_cmd, hs]
  refine ⟨(fixSub (fixHead (t :: ts)).1).1, rfl, ?_⟩
  rcases fixHead_cases t ts with h | h | ⟨h, hm⟩
  · left; rw [h, fixSub_drop2]
  · left; rw [h, fixSub_drop2]; rfl
  · right
    have hm2 : t ∈ SUBCOMMANDS := by simpa using hm
    rw [h]
    simp [fixSub, hm2]

/-- Witness for C10 at the claim's example input: quote and whitespace
normalization with an empty note. -/
theorem autocorrect_rejoin_app :
    autocorrect_cmd "docker  run \"a b\"" = ("docker run a b", "") ∧
    (autocorrect_cmd "docker  run \"a b\"").1 ≠ "docker  run \"a b\"" ∧
    (∃ fixed, (autocorrect_cmd "docker  run \"a b\"").1 = String.intercalate " " fixed ∧
      (fixed.drop 2 = (["docker", "run", "a b"] : List String).drop 2 ∨
       fixed = "docker" :: ["docker", "run", "a b"])) :=
  ⟨by decide, by decide,
   autocorrect_rejoin_structure "docker  run \"a b\"" ["docker", "run", "a b"]
     (by decide) (by decide)⟩

/-! ## Claims about the command catalog -/

theorem formatArgAux_pat (arg rest : List Char) :
    formatArgAux arg ('{' :: 'a' :: 'r' :: 'g' :: '}' :: rest)
      = arg ++ formatArgAux arg rest := rfl

theorem formatArgAux_ne (arg : List Char) (c : Char) (rest : List Char) (h : c ≠ '{') :
    formatArgAux arg (c :: rest) = c :: formatArgAux arg rest := by
  conv_lhs => rw [formatArgAux.eq_def]
  split
  · next heq => injection heq with h1 h2; exact absurd h1 h
  · next heq => injection heq with h1 h2; rw [h1, h2]
  · next heq => exact absurd heq (by simp)

theorem formatArgAux_clean (arg : List Char) (l : List Char)
    (hl : l.all (fun c => c != '{') = true) : formatArgAux arg l = l := by
  induction l with
  | nil => rfl
  | cons c cs ih =>
      rw [List.all_cons, Bool.and_eq_true] at hl
      rw [formatArgAux_ne arg c cs (by simpa using hl.1), ih hl.2]

/-- On a brace-free front, a single `\x7barg\x7d` field and a brace-free
tail, `str.format` substitutes the argument verbatim. -/
theorem formatArgAux_full (arg p s : List Char)
    (hp : p.all (fun c => c != '{') = true) (hs : s.all (fun c => c != '{') = true) :
    formatArgAux arg (p ++ ('{' :: 'a' :: 'r' :: 'g' :: '}' :: s)) = p ++ arg ++ s := by
  induction p with
  | nil => rw [List.nil_append, formatArgAux_pat, formatArgAux_clean arg s hs, List.nil_append]
  | cons c cs ih =>
      rw [List.all_cons, Bool.and_eq_true] at hp
      rw [List.cons_append, formatArgAux_ne arg c _ (by simpa using hp.1), ih hp.2,
        List.cons_append, List.cons_append]

theorem all_takeWhile (p : Char → Bool) (l : List Char) :
    (l.takeWhile p).all p = true := by
  induction l with
  | nil => rfl
  | cons c cs ih =>
      rw [List.takeWhile_cons]
      split
      · next hc => rw [List.all_cons, Bool.and_eq_true]; exact ⟨hc, ih⟩
      · rfl

/-- Every template in the catalog that requires an argument consists of a
brace-free front, one `\x7barg\x7d` placeholder, and a brace-free tail. -/
theorem commands_templates_good :
    ∀ e ∈ COMMANDS, e.2.2 = true → goodTmpl e.2.1 = true := by decide

/-- Claim C6: for every catalog template with `needs_arg` set, the empty
(falsy) argument resolves to the empty command, and any non-empty argument
is substituted verbatim for the placeholder: the resolved command is the
template's front, then the raw argument, then the template's tail — no
escaping, no validation. -/
theorem template_substitution_spec (label tmpl : String) (na : Bool)
    (hmem : (label, tmpl, na) ∈ COMMANDS) (hna : na = true) :
    resolveTemplate tmpl "" = "" ∧
    ∀ arg : String, arg ≠ "" →
      (resolveTemplate tmpl arg).data = tmplPre tmpl ++ arg.data ++ tmplSuf tmpl := by
  have hg : goodTmpl tmpl = true := commands_templates_good (label, tmpl, na) hmem hna
  unfold goodTmpl at hg
  rw [Bool.and_eq_true, decide_eq_true_eq] at hg
  obtain ⟨heq, hsuf⟩ := hg
  constructor
  · rw [resolveTemplate, if_pos rfl]
  · intro arg harg
    rw [resolveTemplate, if_neg harg]
    show formatArgAux arg.data tmpl.data = _
    rw [heq]
    have hp : (tmplPre tmpl).all (fun c => c != '{') = true :=
      all_takeWhile (fun c => c != '{') tmpl.data
    exact formatArgAux_full arg.data (tmplPre tmpl) (tmplSuf tmpl) hp hsuf

/-- Witness for C6 at the spec's example template. -/
theorem template_substitution_app :
    resolveTemplate "docker pull {arg}" "" = "" ∧
    resolveTemplate "docker pull {arg}" "alpine" = "docker pull alpine" := by
  have h := template_substitution_spec "Pull Image (name)" "docker pull {arg}" true
    (by decide) rfl
  refine ⟨h.1, string_data_inj ?_⟩
  rw [h.2 "alpine" (by decide)]
  decide

/-! ## Claims about the session slots -/

/-- Claim C7: a connect request with any empty field among host, user and
password fails with the validation error before any network I/O and leaves
the slot untouched; and a connect attempt whose network call raises leaves
the slot disconnected (no client held). -/
theorem connect_validation_and_failure (host user pass : String) (newId : Nat)
    (net : NetOutcome) (st : SessSlot) :
    ((host = "" ∨ user = "" ∨ pass = "") →
       connectClick host user pass newId net st =
         (st, false, "Host / user / password required")) ∧
    (∀ msg, host ≠ "" → user ≠ "" → pass ≠ "" → net = NetOutcome.err msg →
       (connectClick host user pass newId net st).1.client = none ∧
       (connectClick host user pass newId net st).2.1 = true) := by
  constructor
  · intro h
    unfold connectClick
    rw [if_pos h]
  · intro msg h1 h2 h3 hnet
    subst hnet
    unfold connectClick
    rw [if_neg (by simp [h1, h2, h3])]
    exact ⟨rfl, rfl⟩

/-- Witness for C7: empty host blocks before I/O; a network error empties
the slot. -/
theorem connect_validation_app :
    connectClick "" "root" "pw" 7 NetOutcome.ok ⟨some 5, [2]⟩ =
      (⟨some 5, [2]⟩, false, "Host / user / password required") ∧
    (connectClick "h" "root" "pw" 7 (NetOutcome.err "timeout") ⟨some 5, [2]⟩).1.client
      = none :=
  ⟨(connect_validation_and_failure "" "root" "pw" 7 NetOutcome.ok ⟨some 5, [2]⟩).1
     (Or.inl rfl),
   ((connect_validation_and_failure "h" "root" "pw" 7 (NetOutcome.err "timeout")
       ⟨some 5, [2]⟩).2 "timeout" (by decide) (by decide) (by decide) rfl).1⟩

/-- Claim C8 (amended): the slot holds at most one client (it is a single
optional reference); a successful reconnect overwrites the slot with the new
client and the prior client is dropped without any `.close()` call — only
the explicit Disconnect handler closes it. -/
theorem reconnect_overwrites_without_close (host user pass : String) (newId : Nat)
    (st : SessSlot) (c : Nat) (hold : st.client = some c)
    (h1 : host ≠ "") (h2 : user ≠ "") (h3 : pass ≠ "") :
    (connectClick host user pass newId NetOutcome.ok st).1.client = some newId ∧
    (connectClick host user pass newId NetOutcome.ok st).1.closed = st.closed ∧
    (∀ msg, (connectClick host user pass newId (NetOutcome.err msg) st).1.closed
       = st.closed) ∧
    disconnectClick st = (⟨none, st.closed ++ [c]⟩, "Disconnected") := by
  have hneg : ¬(host = "" ∨ user = "" ∨ pass = "") := by simp [h1, h2, h3]
  refine ⟨?_, ?_, ?_, ?_⟩
  · unfold connectClick; rw [if_neg hneg]
  · unfold connectClick; rw [if_neg hneg]
  · intro msg; unfold connectClick; rw [if_neg hneg]
  · unfold disconnectClick; rw [hold]

/-- Witness for C8 at concrete values. -/
theorem reconnect_overwrites_app :
    (connectClick "h" "root" "pw" 9 NetOutcome.ok ⟨some 4, [1]⟩).1.client = some 9 ∧
    (connectClick "h" "root" "pw" 9 NetOutcome.ok ⟨some 4, [1]⟩).1.closed = [1] ∧
    disconnectClick ⟨some 4, [1]⟩ = (⟨none, [1, 4]⟩, "Disconnected") := by
  have h := reconnect_overwrites_without_close "h" "root" "pw" 9 ⟨some 4, [1]⟩ 4 rfl
    (by decide) (by decide) (by decide)
  exact ⟨h.1, h.2.1, h.2.2.2.trans (by decide)⟩

/-- Counterexample for C8 as stated: reconnecting over a held client
installs the replacement while the prior client (id 0) is never closed. -/
theorem reconnect_no_close_cex :
    (connectClick "h" "root" "pw" 1 NetOutcome.ok ⟨some 0, []⟩).1 =
      (⟨some 1, []⟩ : SessSlot) ∧
    0 ∉ ((connectClick "h" "root" "pw" 1 NetOutcome.ok ⟨some 0, []⟩).1).closed := by
  constructor <;> decide
